import Mathlib

/-!
Verification of the booklineai-carRental repository.

Shallow embedding of:
  * `app/models/models.py` (Car, Booking)
  * `app/infra/storage/json_store.py` (JsonStore read/write/update, lock loop)
  * `app/repositories/file_json.py` (FileCarRepository, FileBookingRepository)
  * `app/services/bookings.py` (BookingService)
  * `app/api/routes/bookings.py` + `app/api/schemas.py` (POST /api/bookings)

Python `datetime.date` is modelled as a year/month/day record ordered
chronologically (lexicographically on the triple), Python strings as `List Char`
compared by code point, Python call-binding failures and attribute-lookup
failures as explicit `PyError` values.
-/

namespace CarRental

/-- Model of `datetime.date`: year/month/day. Python orders dates
chronologically, which on this representation is lexicographic order on
(year, month, day). -/
structure Date where
  year : Nat
  month : Nat
  day : Nat
deriving DecidableEq, Repr

/-- The ranges `datetime.date` accepts: year 1..9999, month 1..12, day 1..31
(`datetime.date` further restricts day to the month's length; only these
bounds matter for the 4/2/2-digit ISO rendering). -/
def Date.valid (d : Date) : Bool :=
  1 ≤ d.year && d.year ≤ 9999 && 1 ≤ d.month && d.month ≤ 12 && 1 ≤ d.day && d.day ≤ 31

/-- Python `date.__lt__`: chronological order = lexicographic on (y, m, d). -/
def Date.lt (a b : Date) : Bool :=
  a.year < b.year ||
    (a.year == b.year &&
      (a.month < b.month || (a.month == b.month && a.day < b.day)))

/-- Python `date.__le__`. -/
def Date.le (a b : Date) : Bool :=
  Date.lt a b || a == b

/-- The digit character for `n` (`0 ≤ n ≤ 9`): code point `48 + n`. -/
def digitChar (n : Nat) : Char := Char.ofNat (48 + n)

/-- Two-digit zero-padded decimal rendering, as in `f"{n:02d}"` for `n < 100`. -/
def pad2 (n : Nat) : List Char := [digitChar (n / 10), digitChar (n % 10)]

/-- Four-digit zero-padded decimal rendering, as in `f"{n:04d}"` for
`n < 10000`: the two high digits followed by the two low digits. -/
def pad4 (n : Nat) : List Char := pad2 (n / 100) ++ pad2 (n % 100)

/-- Rendering of `date.isoformat()`: `YYYY-MM-DD`. -/
def Date.isoChars (d : Date) : List Char :=
  pad4 d.year ++ '-' :: (pad2 d.month ++ '-' :: pad2 d.day)

/-- Python string `<=` (used by `FileBookingRepository.list_by_dates` on the
stored ISO date strings): lexicographic comparison by code point. -/
def lexLe : List Char → List Char → Bool
  | [], _ => true
  | _ :: _, [] => false
  | a :: as, b :: bs =>
      if a.val < b.val then true
      else if a.val == b.val then lexLe as bs
      else false

/-- Model of `app/models/models.py` `Car`. -/
structure Car where
  id : Int
  make : String
  model : String
deriving DecidableEq, Repr

/-- Model of `app/models/models.py` `Booking`.  In the JSON file the two dates are
stored as their `isoformat()` strings (`model_dump(mode="json")` renders a
`date` that way and `model_validate` parses it back), so the stored string is
`Date.isoChars` of the field. -/
structure Booking where
  id : Int
  car_id : Int
  start_date : Date
  end_date : Date
  customer_name : String
deriving DecidableEq, Repr

/-- The JSON document held by the store, restricted to the two arrays the
repositories read (`data.get("cars", [])` and `data.get("bookings", [])`). -/
structure Doc where
  cars : List Car
  bookings : List Booking
deriving DecidableEq, Repr

/-- Python exceptions that are not part of the service's own hierarchy. -/
inductive PyError where
  | attributeError (obj attr : String)
  | typeError (msg : String)
deriving DecidableEq, Repr

namespace FileCarRepository

/-- Method `FileCarRepository.list_all`: every entry of the `cars` array. -/
def list_all (doc : Doc) : List Car := doc.cars

/-- Method `FileCarRepository.get_by_id`: first `cars` entry with matching id,
else `None`. -/
def get_by_id (doc : Doc) (car_id : Int) : Option Car :=
  doc.cars.find? (fun c => c.id == car_id)

end FileCarRepository

namespace FileBookingRepository

/-- Method `FileBookingRepository.list_all`. -/
def list_all (doc : Doc) : List Booking := doc.bookings

/-- Method `FileBookingRepository.list_by_car_id`: the `bookings` entries whose
`car_id` field matches. -/
def list_by_car_id (doc : Doc) (car_id : Int) : List Booking :=
  doc.bookings.filter (fun b => b.car_id == car_id)

/-- The per-entry test of `FileBookingRepository.list_by_dates`:
`booking["start_date"] <= target_date_str <= booking["end_date"]`, a Python
string comparison on the stored ISO strings. -/
def date_str_between (b : Booking) (target : Date) : Bool :=
  lexLe b.start_date.isoChars target.isoChars &&
    lexLe target.isoChars b.end_date.isoChars

/-- Method `FileBookingRepository.list_by_dates` (note the trailing `s`): keeps the
`bookings` entries passing the string test. -/
def list_by_dates (doc : Doc) (target : Date) : List Booking :=
  doc.bookings.filter (fun b => date_str_between b target)

/-- Method `FileBookingRepository.add`: appends the booking to the `bookings` array
via `JsonStore.update` and returns the booking. -/
def add (doc : Doc) (b : Booking) : Doc × Booking :=
  ({ doc with bookings := doc.bookings ++ [b] }, b)

/-- The method names the `FileBookingRepository` class body defines.  The
`BookingRepository` protocol instead declares `list_by_date` (no trailing
`s`), and `BookingService.available_cars` calls
`self.booking_repository.list_by_date(target_date)`. -/
def methodNames : List String :=
  ["__init__", "list_all", "list_by_car_id", "list_by_dates", "add"]

/-- Attribute lookup for the date-query method `available_cars` invokes:
`FileBookingRepository` defines only `list_by_dates`, so looking up any other
name yields nothing (Python raises `AttributeError`). -/
def dateQueryMethod : String → Option (Doc → Date → List Booking)
  | "list_by_dates" => some list_by_dates
  | _ => none

end FileBookingRepository

/-- The exceptions of `app/services/bookings.py`.  `serviceError` is a bare
`BookingServiceError`; `carNotFound` and `conflict` are the two subclasses. -/
inductive BookingError where
  | serviceError (msg : String)
  | carNotFound (car_id : Int)
  | conflict (car_id : Int) (start_date end_date : Date)
deriving DecidableEq, Repr

namespace BookingService

/-- Helper `BookingService._covers_date`:
`booking.start_date <= target_date <= booking.end_date` (date comparison). -/
def covers_date (b : Booking) (target : Date) : Bool :=
  Date.le b.start_date target && Date.le target b.end_date

/-- Helper `BookingService._overlaps`: `not (end1 < start2 or end2 < start1)`. -/
def overlaps (start1 end1 start2 end2 : Date) : Bool :=
  !(Date.lt end1 start2 || Date.lt end2 start1)

/-- Helper `BookingService._has_booking_conflict`: scans
`booking_repository.list_by_car_id(car_id)` and reports `True` on the first
overlap. -/
def has_booking_conflict (doc : Doc) (car_id : Int) (start_date end_date : Date) : Bool :=
  (FileBookingRepository.list_by_car_id doc car_id).any
    (fun b => overlaps b.start_date b.end_date start_date end_date)

/-- Method `BookingService.available_cars` wired to the file repositories: lists all
cars, returns `[]` if none, then evaluates
`self.booking_repository.list_by_date(target_date)` — an attribute lookup on
`FileBookingRepository`, which defines `list_by_dates` only — and filters cars
whose id is in the booked set. -/
def available_cars (doc : Doc) (target_date : Date) : Except PyError (List Car) :=
  let cars := FileCarRepository.list_all doc
  if cars.isEmpty then .ok []
  else
    match FileBookingRepository.dateQueryMethod ("list_by_date") with
    | none => .error (.attributeError ("FileBookingRepository") ("list_by_date"))
    | some m =>
        let booked_car_ids :=
          ((m doc target_date).filter (fun b => covers_date b target_date)).map
            (fun b => b.car_id)
        .ok (cars.filter (fun c => !(booked_car_ids.contains c.id)))

/-- Method `BookingService.create_booking` wired to the file repositories: validates
the date range, looks the car up, checks conflicts, then persists via
`FileBookingRepository.add`.  On error the document is untouched (the add is
never reached). -/
def create_booking (doc : Doc) (car_id : Int) (start_date end_date : Date)
    (customer_name : String) (booking_id : Int) : Except BookingError (Doc × Booking) :=
  if Date.lt end_date start_date then
    .error (.serviceError ("End date cannot be before start date."))
  else
    match FileCarRepository.get_by_id doc car_id with
    | none => .error (.carNotFound car_id)
    | some _ =>
        if has_booking_conflict doc car_id start_date end_date then
          .error (.conflict car_id start_date end_date)
        else
          .ok (FileBookingRepository.add doc
            { id := booking_id, car_id := car_id, start_date := start_date,
              end_date := end_date, customer_name := customer_name })

/-- The repository/store calls `create_booking` performs, in order, as a list
of method names; `add` is the only one that reads or writes the store's file
beyond a read.  Derived from the body of `BookingService.create_booking`: the
date validation precedes every repository access. -/
def create_booking_accesses (doc : Doc) (car_id : Int) (start_date end_date : Date) : List String :=
  if Date.lt end_date start_date then []
  else
    "car_repository.get_by_id" ::
      (match FileCarRepository.get_by_id doc car_id with
      | none => []
      | some _ =>
          "booking_repository.list_by_car_id" ::
            (if has_booking_conflict doc car_id start_date end_date then []
            else ["booking_repository.add"]))

end BookingService

/-- Model of `app/api/schemas.py` `CreateBookingRequest` after FastAPI/pydantic
validation. -/
structure CreateBookingRequest where
  car_id : Int
  start_date : Date
  end_date : Date
  customer_name : String
deriving DecidableEq, Repr

/-- The pydantic validation of `CreateBookingRequest`:
`car_id >= 1`, `1 <= len(customer_name) <= 100`, and the model validator
`end_date >= start_date`. -/
def CreateBookingRequest.valid (p : CreateBookingRequest) : Bool :=
  1 ≤ p.car_id && 1 ≤ p.customer_name.length && p.customer_name.length ≤ 100 &&
    !(Date.lt p.end_date p.start_date)

/-- Outcome of the `POST /api/bookings` handler on a validated payload. -/
inductive ApiResult where
  | created (b : Booking)
  | notFound404 (car_id : Int)
  | conflict409 (car_id : Int) (start_date end_date : Date)
  | unprocessable422 (msg : String)
  | serverError500 (e : PyError)
deriving DecidableEq, Repr

namespace ApiRoutes

/-- The keyword arguments the route handler passes to
`service.create_booking`: `car_id`, `start_date`, `end_date`,
`customer_name` — and no `booking_id`.  The value bound to the service's
required keyword-only parameter `booking_id` is therefore absent. -/
def routeBookingIdArg (_ : CreateBookingRequest) : Option Int := none

/-- The parameters `BookingService.create_booking` requires (all
keyword-only, none with a default). -/
def createBookingRequiredParams : List String :=
  ["car_id", "start_date", "end_date", "customer_name", "booking_id"]

/-- The keyword names the route's call site supplies. -/
def routeSuppliedKwargs : List String :=
  ["car_id", "start_date", "end_date", "customer_name"]

/-- Handler `app/api/routes/bookings.py` `create_booking` on a validated payload:
Python first binds the call's keyword arguments to the service's parameters —
`booking_id` is unbound, raising `TypeError`, which no `except` clause of the
handler catches (they catch only `BookingServiceError` and subclasses), so
FastAPI answers 500.  Were the binding to succeed, the handler would map the
service result to 201/404/409/422 as its `try`/`except` clauses do. -/
def create_booking_route (doc : Doc) (p : CreateBookingRequest) : ApiResult :=
  match routeBookingIdArg p with
  | none =>
      .serverError500 (.typeError
        ("create_booking() missing 1 required keyword-only argument: booking_id"))
  | some booking_id =>
      match BookingService.create_booking doc p.car_id p.start_date p.end_date
          p.customer_name booking_id with
      | .ok (_, b) => .created b
      | .error (.carNotFound cid) => .notFound404 cid
      | .error (.conflict cid s e) => .conflict409 cid s e
      | .error (.serviceError msg) => .unprocessable422 msg

end ApiRoutes

/-! JsonStore (`app/infra/storage/json_store.py`).  The file system is
modelled as the target file's state: `none` when the file does not exist,
`some raw` its text otherwise.  `json.loads` is an abstract parameter (a
parse either succeeds with a JSON value or fails as `JSONDecodeError`,
modelled by `Option`); no OS-level I/O failure is modelled, so the `except
OSError` arms never fire. -/

/-- JSON values, as `json.loads` produces them. -/
inductive Json where
  | null
  | boolVal (b : Bool)
  | numVal (n : Int)
  | strVal (s : String)
  | arr (xs : List Json)
  | obj (fields : List (String × Json))
deriving Repr

/-- Test `isinstance(data, dict)`. -/
def Json.isObj : Json → Bool
  | .obj _ => true
  | _ => false

/-- The store's error hierarchy: `JsonCorruptedError` is a subclass of
`JsonStoreError`. -/
inductive StoreError where
  | corrupted (msg : String)
  | storeError (msg : String)
deriving DecidableEq, Repr

/-- Python `str.strip()` removes exactly Python's string whitespace; the content
counts as empty when every character is such whitespace. -/
def pyBlank (raw : String) : Bool :=
  raw.toList.all (fun c =>
    c == ' ' || c == '\t' || c == '\n' || c == '\r' ||
      c == Char.ofNat 11 || c == Char.ofNat 12)

namespace JsonStore

/-- The attribute names defined on the `JsonStore` dataclass (fields,
methods, and the `_lock_path` property).  `write`'s body refers to
`self._fysync_dir`, which is not among them. -/
def attributeNames : List String :=
  ["path", "lock_timeout_s", "lock_poll_interval_s", "_mutex", "__post_init__",
   "read", "write", "update", "read_unlocked", "write_unlocked",
   "_lock_path", "_lock_file", "_fsync_dir"]

/-- Method `JsonStore.read` (file-content semantics; the lock bracket acquires and
releases around this body): missing file → `{}`; blank content → `{}`;
unparsable content → `JsonCorruptedError`; a JSON object → its fields; any
other JSON value `v` → `{"_root": v}`. -/
def read (loads : String → Option Json) (file : Option String) :
    Except StoreError (List (String × Json)) :=
  match file with
  | none => .ok []
  | some raw =>
      if pyBlank raw then .ok []
      else
        match loads raw with
        | none => .error (.corrupted ("JSON file corrupted"))
        | some (Json.obj fields) => .ok fields
        | some data => .ok [("_root", data)]

/-- What a call to `JsonStore.write` leaves behind: the target file's new
state and the call's outcome. -/
structure WriteOutcome where
  file : Option String
  result : Except PyError Unit
deriving Repr

/-- Method `JsonStore.write` with no I/O failure: the temp file is written, fsynced
and `os.replace`d onto the target (so the target now holds the full payload),
and then the body evaluates `self._fysync_dir(self.path.parent)` — an
attribute lookup on the instance.  `AttributeError` is not an `OSError`, so
the `except OSError` arm does not convert it to `JsonStoreError`. -/
def write (_file : Option String) (payload : String) : WriteOutcome :=
  let replaced : Option String := some payload
  if attributeNames.contains ("_fysync_dir") then ⟨replaced, .ok ()⟩
  else ⟨replaced, .error (.attributeError ("JsonStore") ("_fysync_dir"))⟩

end JsonStore

/-! The lock-acquisition loop of `JsonStore._lock_file`, in the scenario
where the lock-marker file is held by another owner and never released: every
`os.open(..., O_CREAT | O_EXCL | ...)` attempt raises `FileExistsError`, so
each iteration checks `time.monotonic() - start >= lock_timeout_s`, raises
`JsonStoreError` if so, and otherwise sleeps `lock_poll_interval_s` and
retries.  `start` is the `time.monotonic()` value read before the loop and
`times k` the value read by the `k`-th elapsed-time check; `time.sleep(p)`
suspends for at least `p` seconds, so consecutive checks are at least the
poll interval apart. -/

/-- The lock loop under a permanently held marker, with `fuel` bounding how
many iterations we unroll: `some k` means the loop raises the timeout
`JsonStoreError` at the `k`-th elapsed-time check; `none` means `fuel`
iterations did not reach the timeout. -/
def lockLoop (timeout start : ℚ) (times : Nat → ℚ) : Nat → Nat → Option Nat
  | 0, _ => none
  | fuel + 1, k => if timeout ≤ times k - start then some k else lockLoop timeout start times fuel (k + 1)

/-! Runs of `create_booking` (for the id-uniqueness claim). -/

/-- One `create_booking` request as issued by a caller. -/
structure CreateReq where
  car_id : Int
  start_date : Date
  end_date : Date
  customer_name : String
  booking_id : Int
deriving DecidableEq, Repr

/-- Effect of one `create_booking` call on the persisted document: on success
the document grows by the new booking; a raised error leaves it untouched
(the service only persists in its final `add`). -/
def applyCreate (doc : Doc) (r : CreateReq) : Doc :=
  match BookingService.create_booking doc r.car_id r.start_date r.end_date
      r.customer_name r.booking_id with
  | .ok (doc2, _) => doc2
  | .error _ => doc

/-- A sequence of `create_booking` calls, applied in order. -/
def applyCreates (doc : Doc) (reqs : List CreateReq) : Doc :=
  reqs.foldl applyCreate doc

/-! Section: Concrete scenario data (the spec's seed document) -/

/-- The spec's demo cars: `[{1,Toyota,Corolla},{2,Honda,Civic}]`. -/
def demoCars : List Car :=
  [⟨1, "Toyota", "Corolla"⟩, ⟨2, "Honda", "Civic"⟩]

/-- The spec's demo document: the two demo cars and the single booking
`{car_id: 1, 2026-01-24..2026-01-26}`. -/
def demoDoc : Doc :=
  ⟨demoCars, [⟨1, 1, ⟨2026, 1, 24⟩, ⟨2026, 1, 26⟩, "John"⟩]⟩

/-- A document with the demo cars and no bookings. -/
def emptyBookingsDoc : Doc := ⟨demoCars, []⟩

/-- A document with no cars but one booking for car 1
(2026-01-25..2026-01-27). -/
def noCarsDoc : Doc :=
  ⟨[], [⟨1, 1, ⟨2026, 1, 25⟩, ⟨2026, 1, 27⟩, "A"⟩]⟩

/-- A concrete clock: the `k`-th elapsed-time check happens at `k/20`
seconds (the default poll interval is 0.05 s). -/
def demoClock (k : Nat) : ℚ := k / 20

/-- A concrete stand-in for `json.loads`, used to instantiate the read
lemmas on closed inputs. -/
def demoLoads : String → Option Json := fun raw =>
  if raw = "OBJ" then some (Json.obj [("a", Json.numVal 1)])
  else if raw = "NUM" then some (Json.numVal 7)
  else none

/-! Section: Helper lemmas: code-point order of zero-padded decimal strings -/

theorem lexLe_cons (a b : Char) (s t : List Char) :
    lexLe (a :: s) (b :: t) = true ↔
      (a.val < b.val ∨ (a.val = b.val ∧ lexLe s t = true)) := by
  simp only [lexLe]
  split
  · simp only [true_iff]
    left; assumption
  · split
    · rename_i hne heq
      have heq2 : a.val = b.val := by simpa using heq
      simp [heq2, hne]
    · rename_i hne hne2
      have hne3 : ¬ a.val = b.val := by simpa using hne2
      simp [hne, hne3]

theorem digit_lt_iff :
    ∀ x < 10, ∀ y < 10, ((digitChar x).val < (digitChar y).val ↔ x < y) := by
  decide

theorem digit_eq_iff :
    ∀ x < 10, ∀ y < 10, ((digitChar x).val = (digitChar y).val ↔ x = y) := by
  decide

theorem lexLe_pad2_append (x y : Nat) (hx : x < 100) (hy : y < 100)
    (s t : List Char) :
    lexLe (pad2 x ++ s) (pad2 y ++ t) = true ↔
      (x < y ∨ (x = y ∧ lexLe s t = true)) := by
  have h1 := digit_lt_iff (x / 10) (by omega) (y / 10) (by omega)
  have h2 := digit_eq_iff (x / 10) (by omega) (y / 10) (by omega)
  have h3 := digit_lt_iff (x % 10) (by omega) (y % 10) (by omega)
  have h4 := digit_eq_iff (x % 10) (by omega) (y % 10) (by omega)
  simp only [pad2, List.cons_append, List.nil_append, lexLe_cons, h1, h2, h3, h4]
  by_cases hL : lexLe s t = true <;> simp [hL] <;> omega

theorem lexLe_pad4_append (x y : Nat) (hx : x < 10000) (hy : y < 10000)
    (s t : List Char) :
    lexLe (pad4 x ++ s) (pad4 y ++ t) = true ↔
      (x < y ∨ (x = y ∧ lexLe s t = true)) := by
  simp only [pad4, List.append_assoc]
  rw [lexLe_pad2_append (x / 100) (y / 100) (by omega) (by omega),
    lexLe_pad2_append (x % 100) (y % 100) (by omega) (by omega)]
  by_cases hL : lexLe s t = true <;> simp [hL] <;> omega

theorem lexLe_iso_iff (a b : Date) (ha : a.valid = true) (hb : b.valid = true) :
    (lexLe a.isoChars b.isoChars = true) ↔ (Date.le a b = true) := by
  obtain ⟨ya, ma, da⟩ := a
  obtain ⟨yb, mb, db⟩ := b
  simp only [Date.valid, Bool.and_eq_true, decide_eq_true_eq] at ha hb
  simp only [Date.isoChars]
  rw [lexLe_pad4_append ya yb (by omega) (by omega)]
  rw [lexLe_cons]
  rw [lexLe_pad2_append ma mb (by omega) (by omega)]
  rw [lexLe_cons]
  have hday := lexLe_pad2_append da db (by omega) (by omega) [] []
  rw [List.append_nil, List.append_nil] at hday
  rw [hday]
  have hsep : ('-'.val < '-'.val) = False := by simp
  simp only [Date.le, Date.lt, Bool.or_eq_true, Bool.and_eq_true,
    decide_eq_true_eq, beq_iff_eq, Date.mk.injEq, lexLe, hsep,
    lt_self_iff_false, eq_self_iff_true, true_and, false_or, and_true]
  omega

/-! Section: Claim theorems -/

/-- C10: on stored bookings whose date fields are ISO `YYYY-MM-DD` renderings
of valid dates, the lexicographic string test
`booking["start_date"] <= d.isoformat() <= booking["end_date"]` of
`FileBookingRepository.list_by_dates` selects exactly the bookings whose
parsed inclusive range contains `d`, i.e. it coincides with
`BookingService._covers_date` on the parsed values. -/
theorem c10_list_by_dates_eq_covers_date (doc : Doc) (d : Date)
    (hd : d.valid = true)
    (hv : ∀ b ∈ doc.bookings, b.start_date.valid = true ∧ b.end_date.valid = true) :
    FileBookingRepository.list_by_dates doc d =
      doc.bookings.filter (fun b => BookingService.covers_date b d) := by
  unfold FileBookingRepository.list_by_dates
  apply List.filter_congr
  intro b hb
  obtain ⟨h1, h2⟩ := hv b hb
  have e1 : (lexLe b.start_date.isoChars d.isoChars = true) ↔
      (Date.le b.start_date d = true) := lexLe_iso_iff _ _ h1 hd
  have e2 : (lexLe d.isoChars b.end_date.isoChars = true) ↔
      (Date.le d b.end_date = true) := lexLe_iso_iff _ _ hd h2
  simp only [FileBookingRepository.date_str_between, BookingService.covers_date]
  rw [Bool.eq_iff_iff]
  simp only [Bool.and_eq_true]
  exact and_congr e1 e2

/-- Witness for C10 at the spec's demo document and the date 2026-01-25. -/
theorem c10_witness :
    (Date.valid ⟨2026, 1, 25⟩ = true) ∧
    (∀ b ∈ demoDoc.bookings, b.start_date.valid = true ∧ b.end_date.valid = true) ∧
    FileBookingRepository.list_by_dates demoDoc ⟨2026, 1, 25⟩ =
      demoDoc.bookings.filter (fun b => BookingService.covers_date b ⟨2026, 1, 25⟩) :=
  ⟨by decide, by decide,
    c10_list_by_dates_eq_covers_date demoDoc ⟨2026, 1, 25⟩ (by decide) (by decide)⟩

/-- C1 (code bug): a validated `POST /api/bookings` payload naming an
existing car with no overlapping booking never yields 201.  The payload
passes validation, the service call would succeed were `booking_id` bound
(second conjunct), yet the route invokes `service.create_booking` without
the required keyword-only `booking_id`, so the handler raises `TypeError`
(HTTP 500). -/
theorem c1_route_missing_booking_id_type_error :
    CreateBookingRequest.valid ⟨1, ⟨2026, 1, 25⟩, ⟨2026, 1, 27⟩, "John Doe"⟩ = true ∧
    BookingService.create_booking emptyBookingsDoc 1 ⟨2026, 1, 25⟩ ⟨2026, 1, 27⟩ "John Doe" 1 =
      .ok (⟨demoCars, [⟨1, 1, ⟨2026, 1, 25⟩, ⟨2026, 1, 27⟩, "John Doe"⟩]⟩,
        ⟨1, 1, ⟨2026, 1, 25⟩, ⟨2026, 1, 27⟩, "John Doe"⟩) ∧
    ApiRoutes.create_booking_route emptyBookingsDoc
        ⟨1, ⟨2026, 1, 25⟩, ⟨2026, 1, 27⟩, "John Doe"⟩ =
      .serverError500 (.typeError
        ("create_booking() missing 1 required keyword-only argument: booking_id")) ∧
    ApiRoutes.createBookingRequiredParams.contains ("booking_id") = true ∧
    ApiRoutes.routeSuppliedKwargs.contains ("booking_id") = false :=
  ⟨by decide, rfl, rfl, by decide, by decide⟩

/-- C2 (code bug): `JsonStore.write` never returns normally even with no I/O
failure.  After the temp file is `os.replace`d onto the target (so the target
holds the full payload — no partial file), the body evaluates
`self._fysync_dir(...)`; the class defines `_fsync_dir` but no `_fysync_dir`,
so every call raises `AttributeError`, which is not a `JsonStoreError`. -/
theorem c2_write_raises_attribute_error :
    JsonStore.write none ("payload") =
      ⟨some ("payload"), .error (.attributeError ("JsonStore") ("_fysync_dir"))⟩ ∧
    JsonStore.attributeNames.contains ("_fysync_dir") = false ∧
    JsonStore.attributeNames.contains ("_fsync_dir") = true :=
  ⟨rfl, by decide, by decide⟩

/-- C3 (code bug): `BookingService.available_cars` wired to the file
repositories raises `AttributeError` on the spec's own scenario instead of
returning the available cars: it calls `booking_repository.list_by_date`,
but `FileBookingRepository` defines only `list_by_dates`. -/
theorem c3_available_cars_attribute_error :
    BookingService.available_cars demoDoc ⟨2026, 1, 25⟩ =
      .error (.attributeError ("FileBookingRepository") ("list_by_date")) ∧
    BookingService.available_cars demoDoc ⟨2026, 1, 1⟩ =
      .error (.attributeError ("FileBookingRepository") ("list_by_date")) ∧
    FileBookingRepository.methodNames.contains ("list_by_date") = false ∧
    FileBookingRepository.methodNames.contains ("list_by_dates") = true :=
  ⟨rfl, rfl, by decide, by decide⟩

/-- C8: when `end_date < start_date`, `create_booking` raises the bare
`BookingServiceError` (the `serviceError` constructor — distinct from
`carNotFound` and `conflict`) and performs no repository access at all: the
recorded access trace is empty, so the store is neither read nor written. -/
theorem c8_validation_before_repo_access (doc : Doc) (car_id : Int)
    (s e : Date) (name : String) (bid : Int) (h : Date.lt e s = true) :
    BookingService.create_booking doc car_id s e name bid =
      .error (.serviceError ("End date cannot be before start date.")) ∧
    BookingService.create_booking_accesses doc car_id s e = [] := by
  constructor
  · unfold BookingService.create_booking
    rw [h]
    simp
  · unfold BookingService.create_booking_accesses
    rw [h]
    simp

/-- Witness for C8: start 2026-01-27, end 2026-01-25. -/
theorem c8_witness :
    Date.lt ⟨2026, 1, 25⟩ ⟨2026, 1, 27⟩ = true ∧
    (BookingService.create_booking demoDoc 1 ⟨2026, 1, 27⟩ ⟨2026, 1, 25⟩ "John Doe" 7 =
        .error (.serviceError ("End date cannot be before start date.")) ∧
      BookingService.create_booking_accesses demoDoc 1 ⟨2026, 1, 27⟩ ⟨2026, 1, 25⟩ = []) :=
  ⟨by decide,
    c8_validation_before_repo_access demoDoc 1 ⟨2026, 1, 27⟩ ⟨2026, 1, 25⟩ "John Doe" 7 (by decide)⟩

theorem has_booking_conflict_iff (doc : Doc) (car_id : Int) (s e : Date) :
    BookingService.has_booking_conflict doc car_id s e = true ↔
      ∃ b ∈ doc.bookings, b.car_id = car_id ∧
        BookingService.overlaps b.start_date b.end_date s e = true := by
  simp only [BookingService.has_booking_conflict, FileBookingRepository.list_by_car_id,
    List.any_eq_true, List.mem_filter, beq_iff_eq]
  constructor
  · rintro ⟨b, ⟨hmem, hcid⟩, hov⟩
    exact ⟨b, hmem, hcid, hov⟩
  · rintro ⟨b, hmem, hcid, hov⟩
    exact ⟨b, ⟨hmem, hcid⟩, hov⟩

/-- C4 (amended with the car's existence): for a well-ordered requested range
`[s, e]` and a `car_id` the car repository can resolve, `create_booking`
raises `BookingConflictError(car_id, s, e)` exactly when some stored booking
with the same `car_id` overlaps `[s, e]` in the inclusive-inclusive sense
`not (end1 < s or e < start1)`. -/
theorem c4_conflict_iff_overlap (doc : Doc) (car_id : Int) (s e : Date)
    (name : String) (bid : Int)
    (hse : Date.lt e s = false)
    (hcar : (FileCarRepository.get_by_id doc car_id).isSome = true) :
    (BookingService.create_booking doc car_id s e name bid =
        .error (.conflict car_id s e)) ↔
      ∃ b ∈ doc.bookings, b.car_id = car_id ∧
        BookingService.overlaps b.start_date b.end_date s e = true := by
  rw [← has_booking_conflict_iff doc car_id s e]
  obtain ⟨c, hc⟩ := Option.isSome_iff_exists.mp hcar
  unfold BookingService.create_booking
  rw [hse, hc]
  by_cases hconf : BookingService.has_booking_conflict doc car_id s e = true
  · simp [hconf]
  · simp [hconf]

/-- Witness for C4: the spec's conflict scenario — existing booking for car 1
over 2026-01-25..2026-01-27 (in `noCarsDoc.bookings`, put under the demo
cars), requested 2026-01-26..2026-01-28. -/
theorem c4_witness :
    Date.lt ⟨2026, 1, 28⟩ ⟨2026, 1, 26⟩ = false ∧
    (FileCarRepository.get_by_id ⟨demoCars, noCarsDoc.bookings⟩ 1).isSome = true ∧
    ((BookingService.create_booking ⟨demoCars, noCarsDoc.bookings⟩ 1
          ⟨2026, 1, 26⟩ ⟨2026, 1, 28⟩ "B" 2 =
        .error (.conflict 1 ⟨2026, 1, 26⟩ ⟨2026, 1, 28⟩)) ↔
      ∃ b ∈ (Doc.mk demoCars noCarsDoc.bookings).bookings, b.car_id = 1 ∧
        BookingService.overlaps b.start_date b.end_date ⟨2026, 1, 26⟩ ⟨2026, 1, 28⟩ = true) :=
  ⟨by decide, by decide,
    c4_conflict_iff_overlap ⟨demoCars, noCarsDoc.bookings⟩ 1
      ⟨2026, 1, 26⟩ ⟨2026, 1, 28⟩ "B" 2 (by decide) (by decide)⟩

/-- Counterexample to C4 as stated: it quantifies over every `car_id` and set
of existing bookings, but when the car repository cannot resolve the car,
`create_booking` raises `CarNotFoundError` even though an overlapping booking
for that `car_id` exists, so the claimed "if and only if" fails. -/
theorem c4_counterexample :
    Date.lt ⟨2026, 1, 28⟩ ⟨2026, 1, 26⟩ = false ∧
    (∃ b ∈ noCarsDoc.bookings, b.car_id = 1 ∧
      BookingService.overlaps b.start_date b.end_date ⟨2026, 1, 26⟩ ⟨2026, 1, 28⟩ = true) ∧
    BookingService.create_booking noCarsDoc 1 ⟨2026, 1, 26⟩ ⟨2026, 1, 28⟩ "B" 2 =
      .error (.carNotFound 1) :=
  ⟨by decide, by decide, rfl⟩

theorem create_booking_ok_eq (doc : Doc) (car_id : Int) (s e : Date)
    (name : String) (bid : Int) (doc2 : Doc) (b : Booking)
    (h : BookingService.create_booking doc car_id s e name bid = .ok (doc2, b)) :
    doc2 = { doc with bookings := doc.bookings ++ [b] } ∧ b.id = bid := by
  unfold BookingService.create_booking at h
  split at h
  · exact absurd h (by simp)
  · split at h
    · exact absurd h (by simp)
    · split at h
      · exact absurd h (by simp)
      · unfold FileBookingRepository.add at h
        obtain ⟨h1, h2⟩ := Prod.mk.injEq .. ▸ Except.ok.injEq .. ▸ h
        subst h2
        exact ⟨h1.symm, rfl⟩

theorem applyCreate_ids (doc : Doc) (r : CreateReq) :
    (applyCreate doc r).bookings.map Booking.id = doc.bookings.map Booking.id ∨
    (applyCreate doc r).bookings.map Booking.id =
      doc.bookings.map Booking.id ++ [r.booking_id] := by
  unfold applyCreate
  split
  · rename_i doc2 b h
    obtain ⟨h1, h2⟩ := create_booking_ok_eq doc r.car_id r.start_date r.end_date
      r.customer_name r.booking_id doc2 b h
    right
    subst h1
    simp [h2]
  · left; rfl

/-- C5 (amended): booking-id uniqueness holds exactly when the callers supply
it — `create_booking` persists the caller-given `booking_id` unchecked, so if
the stored ids are pairwise distinct and the supplied ids are pairwise
distinct and disjoint from the stored ones, every state reached by a sequence
of `create_booking` calls still has pairwise-distinct booking ids. -/
theorem c5_unique_ids_of_distinct_supplied (doc : Doc) (reqs : List CreateReq)
    (h1 : (doc.bookings.map Booking.id).Nodup)
    (h2 : (reqs.map CreateReq.booking_id).Nodup)
    (h3 : ∀ r ∈ reqs, r.booking_id ∉ doc.bookings.map Booking.id) :
    ((applyCreates doc reqs).bookings.map Booking.id).Nodup := by
  induction reqs generalizing doc with
  | nil => simpa [applyCreates] using h1
  | cons r rs ih =>
    have happly := applyCreate_ids doc r
    have hstep : applyCreates doc (r :: rs) = applyCreates (applyCreate doc r) rs := rfl
    rw [hstep]
    have hr : r.booking_id ∉ doc.bookings.map Booking.id :=
      h3 r (List.mem_cons_self r rs)
    have hnodup2 : (rs.map CreateReq.booking_id).Nodup :=
      (List.nodup_cons.mp (by simpa using h2)).2
    have hrnot : r.booking_id ∉ rs.map CreateReq.booking_id :=
      (List.nodup_cons.mp (by simpa using h2)).1
    apply ih (applyCreate doc r)
    · rcases happly with hsame | happ
      · rw [hsame]; exact h1
      · rw [happ]
        rw [List.nodup_append]
        refine ⟨h1, List.nodup_singleton _, ?_⟩
        intro a ha hmem
        rw [List.mem_singleton] at hmem
        exact hr (hmem ▸ ha)
    · exact hnodup2
    · intro rr hrr
      rcases happly with hsame | happ
      · rw [hsame]; exact h3 rr (List.mem_cons_of_mem r hrr)
      · rw [happ]
        simp only [List.mem_append, List.mem_singleton]
        rintro (hin | heq)
        · exact h3 rr (List.mem_cons_of_mem r hrr) hin
        · exact hrnot (heq ▸ List.mem_map_of_mem CreateReq.booking_id hrr)

/-- Witness for C5: two successful creations with distinct supplied ids on
the demo cars leave distinct stored ids. -/
theorem c5_witness :
    ((emptyBookingsDoc.bookings.map Booking.id).Nodup ∧
      (([⟨1, ⟨2026, 1, 25⟩, ⟨2026, 1, 27⟩, "A", 1⟩,
         ⟨2, ⟨2026, 1, 25⟩, ⟨2026, 1, 27⟩, "B", 2⟩] :
          List CreateReq).map CreateReq.booking_id).Nodup ∧
      (∀ r ∈ ([⟨1, ⟨2026, 1, 25⟩, ⟨2026, 1, 27⟩, "A", 1⟩,
         ⟨2, ⟨2026, 1, 25⟩, ⟨2026, 1, 27⟩, "B", 2⟩] : List CreateReq),
        r.booking_id ∉ emptyBookingsDoc.bookings.map Booking.id)) ∧
    ((applyCreates emptyBookingsDoc
        [⟨1, ⟨2026, 1, 25⟩, ⟨2026, 1, 27⟩, "A", 1⟩,
         ⟨2, ⟨2026, 1, 25⟩, ⟨2026, 1, 27⟩, "B", 2⟩]).bookings.map Booking.id).Nodup :=
  ⟨⟨by decide, by decide, by decide⟩,
    c5_unique_ids_of_distinct_supplied emptyBookingsDoc
      [⟨1, ⟨2026, 1, 25⟩, ⟨2026, 1, 27⟩, "A", 1⟩,
       ⟨2, ⟨2026, 1, 25⟩, ⟨2026, 1, 27⟩, "B", 2⟩]
      (by decide) (by decide) (by decide)⟩

/-- Counterexample to C5 as stated: two `create_booking` calls that both
succeed (cars 1 and 2, same dates, both with `booking_id = 1`) leave two
stored bookings sharing id 1 — `create_booking` performs no id-uniqueness
check. -/
theorem c5_counterexample :
    (BookingService.create_booking emptyBookingsDoc 1
        ⟨2026, 1, 25⟩ ⟨2026, 1, 27⟩ "A" 1 =
      .ok (applyCreate emptyBookingsDoc ⟨1, ⟨2026, 1, 25⟩, ⟨2026, 1, 27⟩, "A", 1⟩,
        ⟨1, 1, ⟨2026, 1, 25⟩, ⟨2026, 1, 27⟩, "A"⟩)) ∧
    (BookingService.create_booking
        (applyCreate emptyBookingsDoc ⟨1, ⟨2026, 1, 25⟩, ⟨2026, 1, 27⟩, "A", 1⟩) 2
        ⟨2026, 1, 25⟩ ⟨2026, 1, 27⟩ "B" 1 =
      .ok (applyCreates emptyBookingsDoc
          [⟨1, ⟨2026, 1, 25⟩, ⟨2026, 1, 27⟩, "A", 1⟩,
           ⟨2, ⟨2026, 1, 25⟩, ⟨2026, 1, 27⟩, "B", 1⟩],
        ⟨1, 2, ⟨2026, 1, 25⟩, ⟨2026, 1, 27⟩, "B"⟩)) ∧
    (applyCreates emptyBookingsDoc
        [⟨1, ⟨2026, 1, 25⟩, ⟨2026, 1, 27⟩, "A", 1⟩,
         ⟨2, ⟨2026, 1, 25⟩, ⟨2026, 1, 27⟩, "B", 1⟩]).bookings.map Booking.id = [1, 1] ∧
    ¬ ((applyCreates emptyBookingsDoc
        [⟨1, ⟨2026, 1, 25⟩, ⟨2026, 1, 27⟩, "A", 1⟩,
         ⟨2, ⟨2026, 1, 25⟩, ⟨2026, 1, 27⟩, "B", 1⟩]).bookings.map Booking.id).Nodup :=
  ⟨rfl, rfl, by decide, by decide⟩

/-- C6: `JsonStore.read`, for any parse function standing for `json.loads`:
a missing file and blank content give `{}`; non-blank content that fails to
parse raises `JsonCorruptedError` (never an empty or partial result); a
parsed JSON object is returned as-is; any other parsed value `v` is wrapped
as `{"_root": v}`. -/
theorem c6_read_cases (loads : String → Option Json) :
    (JsonStore.read loads none = .ok []) ∧
    (∀ raw, pyBlank raw = true → JsonStore.read loads (some raw) = .ok []) ∧
    (∀ raw, pyBlank raw = false → loads raw = none →
      JsonStore.read loads (some raw) = .error (.corrupted ("JSON file corrupted"))) ∧
    (∀ raw fields, pyBlank raw = false → loads raw = some (Json.obj fields) →
      JsonStore.read loads (some raw) = .ok fields) ∧
    (∀ raw v, pyBlank raw = false → loads raw = some v → v.isObj = false →
      JsonStore.read loads (some raw) = .ok [("_root", v)]) := by
  refine ⟨rfl, ?_, ?_, ?_, ?_⟩
  · intro raw h
    simp [JsonStore.read, h]
  · intro raw h1 h2
    simp [JsonStore.read, h1, h2]
  · intro raw fields h1 h2
    simp [JsonStore.read, h1, h2]
  · intro raw v h1 h2 h3
    simp only [JsonStore.read, h1, Bool.false_eq_true, if_false, h2]
    cases v with
    | obj fields => exact absurd h3 (by simp [Json.isObj])
    | null => rfl
    | boolVal b => rfl
    | numVal n => rfl
    | strVal s => rfl
    | arr xs => rfl

/-- Witness for C6: each of the five read outcomes at a closed input, via the
concrete parse stand-in `demoLoads`. -/
theorem c6_witness :
    (JsonStore.read demoLoads none = .ok []) ∧
    (JsonStore.read demoLoads (some ("  ")) = .ok []) ∧
    (JsonStore.read demoLoads (some ("oops")) =
      .error (.corrupted ("JSON file corrupted"))) ∧
    (JsonStore.read demoLoads (some ("OBJ")) = .ok [("a", Json.numVal 1)]) ∧
    (JsonStore.read demoLoads (some ("NUM")) = .ok [("_root", Json.numVal 7)]) := by
  obtain ⟨w1, w2, w3, w4, w5⟩ := c6_read_cases demoLoads
  exact ⟨w1, w2 ("  ") (by decide), w3 ("oops") (by decide) rfl,
    w4 ("OBJ") [("a", Json.numVal 1)] (by decide) rfl,
    w5 ("NUM") (Json.numVal 7) (by decide) rfl rfl⟩

theorem lockLoop_run (timeout start : ℚ) (times : Nat → ℚ) :
    ∀ (n j : Nat), (∀ i < n, ¬ (timeout ≤ times (j + i) - start)) →
      timeout ≤ times (j + n) - start →
      lockLoop timeout start times (n + 1) j = some (j + n) := by
  intro n
  induction n with
  | zero =>
    intro j _ hP
    simp only [Nat.add_zero] at hP
    simp [lockLoop, hP]
  | succ n ih =>
    intro j hmin hP
    have h0 : ¬ (timeout ≤ times j - start) := by
      have := hmin 0 (Nat.succ_pos n)
      simpa using this
    have hstep : lockLoop timeout start times (n + 1 + 1) j =
        lockLoop timeout start times (n + 1) (j + 1) := by
      simp [lockLoop, h0]
    rw [hstep]
    have hres := ih (j + 1)
      (fun i hi => by
        have := hmin (i + 1) (Nat.succ_lt_succ hi)
        simpa [Nat.add_assoc, Nat.add_comm 1 i] using this)
      (by simpa [Nat.add_assoc, Nat.add_comm 1 n] using hP)
    rw [hres]
    congr 1
    omega

theorem times_growth (poll : ℚ) (times : Nat → ℚ)
    (hstep : ∀ k, times k + poll ≤ times (k + 1)) :
    ∀ k : Nat, times 0 + k * poll ≤ times k := by
  intro k
  induction k with
  | zero => simp
  | succ k ih =>
    have h := hstep k
    push_cast
    nlinarith [ih, h]

/-- C9: with the lock marker held forever (every `os.open(..., O_EXCL)`
attempt fails), the acquisition loop of `JsonStore._lock_file` terminates by
raising the timeout `JsonStoreError`: for some finite unrolling it raises at
an elapsed-time check where `time.monotonic() - start >= lock_timeout_s`
holds, and at every earlier check the elapsed time was still below the bound
(so it neither hangs nor fails early).  `times k` is the monotonic reading of
the `k`-th check; consecutive checks are separated by at least the poll
interval. -/
theorem c9_lock_timeout (timeout poll start : ℚ) (times : Nat → ℚ)
    (hpoll : 0 < poll) (hstart : start ≤ times 0)
    (hstep : ∀ k, times k + poll ≤ times (k + 1)) :
    ∃ fuel k, lockLoop timeout start times fuel 0 = some k ∧
      timeout ≤ times k - start ∧
      ∀ j < k, times j - start < timeout := by
  have hex : ∃ k : Nat, timeout ≤ times k - start := by
    obtain ⟨n, hn⟩ := exists_nat_ge (timeout / poll)
    refine ⟨n, ?_⟩
    have hg := times_growth poll times hstep n
    have : timeout ≤ n * poll := by
      rw [div_le_iff₀ hpoll] at hn
      linarith
    linarith
  have hK : timeout ≤ times (Nat.find hex) - start := Nat.find_spec hex
  have hKmin : ∀ j < Nat.find hex, ¬ (timeout ≤ times j - start) :=
    fun j hj => Nat.find_min hex hj
  refine ⟨Nat.find hex + 1, Nat.find hex, ?_, hK, fun j hj => ?_⟩
  · have hrun := lockLoop_run timeout start times (Nat.find hex) 0
      (fun i hi => by simpa using hKmin i hi)
      (by simpa using hK)
    simpa using hrun
  · have := hKmin j hj
    linarith

/-- Witness for C9: timeout 2 s, poll interval 1/20 s, `start = 0`, and the
`k`-th check at `k/20` seconds. -/
theorem c9_witness :
    ((0 : ℚ) < 1/20 ∧ (0 : ℚ) ≤ demoClock 0 ∧
      (∀ k, demoClock k + 1/20 ≤ demoClock (k + 1))) ∧
    ∃ fuel k, lockLoop 2 0 demoClock fuel 0 = some k ∧
      2 ≤ demoClock k - 0 ∧ ∀ j < k, demoClock j - 0 < 2 :=
  ⟨⟨by norm_num, by simp [demoClock],
      by intro k; simp only [demoClock]; push_cast; linarith⟩,
    c9_lock_timeout 2 (1/20) 0 demoClock (by norm_num) (by simp [demoClock])
      (by intro k; simp only [demoClock]; push_cast; linarith)⟩

end CarRental
